import Mathlib

/-
Verification of the song-ingestion core of the seek-tune repository.

The repository source under scrutiny is `song/processor.go`, which drives
the ingestion pipeline: download, convert to WAV, build spectrogram,
extract peaks, generate fingerprints, register the track, store the
fingerprints, and move the WAV file into place.

External collaborators (HTTP, filesystem, ffmpeg, the `wav`, `shazam`,
`db` and `utils` packages) are not part of the source under `src/`; they
are modelled either as an explicit environment (an oracle giving each
external call's outcome, so theorems quantify over every possible
behaviour of the collaborators) or, where a claim is about the missing
component itself, as definitions modelled from the specification's words
(each such definition carries a doc comment beginning "Modelled from the
spec:").

Go's `(value, error)` return convention is modelled with `Except String`:
`processor.go` returns `(nil, err)` on every error path and
`(resp, nil)` on its success path, so `Except.error msg` stands for a nil
response with a non-nil error and `Except.ok resp` for a non-nil response
with a nil error.  Go error values are modelled by their message strings;
`fmt.Errorf("prefix: %v", err)` becomes string concatenation.

Every external call the function makes is recorded in an event trace, so
temporal claims (call order, absence of calls, call counts) are theorems
about the trace.
-/

namespace SeekTune

/-- A spectral peak, as in the spec's data model (§3):
frame index, frequency-bin index, magnitude. Magnitudes are real-valued
in the source (float64); they are modelled as rationals. -/
structure Peak where
  frameIndex : Nat
  binIndex : Nat
  magnitude : Rat
deriving DecidableEq

/-- A fingerprint, as in the spec's data model (§3): a fixed-width hash,
the identifier of the track it belongs to, and the anchor's frame index. -/
structure Fingerprint where
  hash : Nat
  trackID : Nat
  anchorTimeOffset : Nat
deriving DecidableEq

/-- Error taxonomy of the spec (§7). Only `InvalidInput` is produced by
the modelled core components themselves. -/
inductive ShazamError where
  | invalidInput
deriving DecidableEq

/-! ## Spec-modelled core pipeline components

The bodies of `shazam.Spectrogram`, `shazam.ExtractPeaks` and
`shazam.Fingerprint` are not under `src/` (only their call sites in
`processor.go` are), so they are modelled from the specification
(§4.1–§4.3). -/

/-- Window length for spectrogram segmentation (spec §4.1, "fixed window
length, e.g. 4096 samples"). -/
def windowSize : Nat := 4096

/-- Hop between successive windows (spec §4.1, "fixed hop, e.g. 1/4
window"). -/
def hopSize : Nat := 1024

/-- Number of frequency bins per spectrogram frame (half the window, as
for a real-input magnitude spectrum). -/
def binCount : Nat := 2048

/-- Modelled from the spec: stand-in for the sample-level weight of the
discrete frequency-domain transform of §4.1.  The true transform (Hann
smoothing followed by a DFT magnitude) is an external numeric routine
that is not in `src/`; any fixed deterministic magnitude computation
satisfies the spec's requirements, and no claim depends on its values.
This stand-in uses the sign of a square wave at frequency `k`. -/
def transformWeight (i k : Nat) : Rat :=
  if (2 * i * k / windowSize) % 2 = 0 then 1 else -1

/-- Modelled from the spec: the magnitude of frequency bin `k` of one
window, via the stand-in transform; phase is discarded, only the
magnitude is kept (§4.1). -/
def binMagnitude (win : List Rat) (k : Nat) : Rat :=
  |(win.enum.foldl (fun acc p => acc + p.2 * transformWeight p.1 k) 0)|

/-- Modelled from the spec: one spectrogram frame — the fixed-length
vector of per-bin magnitudes of the window starting at sample
`i * hopSize` (§3, §4.1). -/
def spectroFrame (samples : List Rat) (i : Nat) : List Rat :=
  (List.range binCount).map
    (binMagnitude ((samples.drop (i * hopSize)).take windowSize))

/-- Modelled from the spec: the body of `shazam.Spectrogram`
(`buildSpectrogram(samples, sampleRate) → Spectrogram`, §4.1).  Fails
with `InvalidInput` when samples is empty or sampleRate ≤ 0; otherwise
segments the samples into overlapping windows and maps each window to
its magnitude vector.  Frame count follows the §3 invariant
`floor((len(samples) − window)/hop) + 1`, taken as zero when the input
is shorter than one window. -/
def buildSpectrogram (samples : List Rat) (sampleRate : Int) :
    Except ShazamError (List (List Rat)) :=
  if samples = [] ∨ sampleRate ≤ 0 then
    Except.error ShazamError.invalidInput
  else if samples.length < windowSize then
    Except.ok []
  else
    Except.ok ((List.range ((samples.length - windowSize) / hopSize + 1)).map
      (spectroFrame samples))

/-- Number of frequency bands for peak extraction (spec §4.2, "e.g., 5–6
bands"). -/
def numBands : Nat := 6

/-- Length (in frames) of the rolling-average window for the adaptive
peak threshold (spec §4.2; a configurable constant per §9). -/
def histLen : Nat := 8

/-- Frames per second of audio used to turn the `duration` bound into a
frame cap (44100 / 1024 ≈ 43). -/
def framesPerSecond : Nat := 43

/-- First bin (inclusive) of band `b` when the frequency axis of `bins`
bins is partitioned into `numBands` bands. -/
def bandLo (bins b : Nat) : Nat := b * bins / numBands

/-- First bin past band `b`. -/
def bandHi (bins b : Nat) : Nat := (b + 1) * bins / numBands

/-- The bin index and magnitude of the largest-magnitude bin of `frame`
in the bin range `[lo, hi)`; ties keep the lowest bin, so production
order is deterministic (§4.2). -/
def championIn (frame : List Rat) (lo hi : Nat) : Nat × Rat :=
  (List.range (hi - lo)).foldl
    (fun best j =>
      let k := lo + j
      let m := frame.getD k 0
      if best.2 < m then (k, m) else best)
    (lo, frame.getD lo 0)

/-- Mean magnitude of the bins `[lo, hi)` of one frame. -/
def bandAvg (frame : List Rat) (lo hi : Nat) : Rat :=
  if hi ≤ lo then 0
  else (((frame.drop lo).take (hi - lo)).foldl (· + ·) 0) / ((hi - lo : Nat) : Rat)

/-- Modelled from the spec: the adaptive threshold of §4.2 — the rolling
average of band `[lo, hi)`'s mean magnitude over the up-to-`histLen`
frames ending at frame `t`; frames near the start use the available
partial window rather than failing (§4.2 edge policy). -/
def rollingAvg (frames : List (List Rat)) (t lo hi : Nat) : Rat :=
  let start := t + 1 - histLen
  let cnt := t + 1 - start
  (((frames.drop start).take cnt).foldl (fun a f => a + bandAvg f lo hi) 0) /
    ((cnt : Nat) : Rat)

/-- Modelled from the spec: the peak set of a (non-empty) spectrogram
(§4.2).  The `duration` bound caps how many frames are considered; per
band and per frame the champion bin is kept as a peak exactly when its
magnitude exceeds the band's rolling-average threshold. -/
def peaksOf (sp : List (List Rat)) (duration : Rat) : List Peak :=
  let n := min sp.length (Int.toNat ⌊duration * (framesPerSecond : Rat)⌋)
  let frames := sp.take n
  let bins := (sp.headD []).length
  ((List.range n).map (fun t =>
    (List.range numBands).filterMap (fun b =>
      let lo := bandLo bins b
      let hi := bandHi bins b
      if hi ≤ lo then none
      else
        let f := frames.getD t []
        let c := championIn f lo hi
        if rollingAvg frames t lo hi < c.2 then
          some ⟨t, c.1, c.2⟩
        else none))).flatten

/-- Modelled from the spec: the body of `shazam.ExtractPeaks`
(`extractPeaks(spectrogram, duration) → set of Peak`, §4.2).  Fails with
`InvalidInput` if the spectrogram has zero frames. -/
def extractPeaks (sp : List (List Rat)) (duration : Rat) :
    Except ShazamError (List Peak) :=
  if sp = [] then Except.error ShazamError.invalidInput
  else Except.ok (peaksOf sp duration)

/-- Target-zone bound on the frame delta between an anchor and its
targets (spec §4.3, §9: `maxTimeDelta`). -/
def maxTimeDelta : Nat := 31

/-- Cap on how many targets are paired with one anchor (spec §4.3, §9:
`pairsPerAnchor`). -/
def pairsPerAnchor : Nat := 3

/-- Fixed integer quantization of a bin index for hashing (spec §4.3 and
§9: the hash-producing quantization is strictly integer-based). -/
def quantizeBin (b : Nat) : Nat := b % 512

/-- Modelled from the spec: the pair hash of §4.3 — the two quantized
bin indices and the (clamped) frame delta packed into disjoint bit
fields of a fixed-width integer: anchor bin in bits 15–23, target bin in
bits 6–14, delta in bits 0–5. -/
def hashPair (pa pq : Peak) : Nat :=
  quantizeBin pa.binIndex * 32768 + quantizeBin pq.binIndex * 64 +
    min (pq.frameIndex - pa.frameIndex) maxTimeDelta

/-- Ordering on peaks: frame index ascending, ties by bin index
ascending (spec §4.3, for determinism). -/
def peakLE (p q : Peak) : Bool :=
  Nat.blt p.frameIndex q.frameIndex ||
    (Nat.beq p.frameIndex q.frameIndex && Nat.ble p.binIndex q.binIndex)

/-- Insert a peak into a `peakLE`-sorted list. -/
def insertPeak (p : Peak) : List Peak → List Peak
  | [] => [p]
  | q :: rest => if peakLE p q then p :: q :: rest else q :: insertPeak p rest

/-- Insertion sort of peaks by `peakLE`. -/
def sortPeaks : List Peak → List Peak
  | [] => []
  | p :: rest => insertPeak p (sortPeaks rest)

/-- The targets of anchor `p` among the (sorted) later peaks: frame index
strictly after the anchor and within `maxTimeDelta`, capped at
`pairsPerAnchor` nearest candidates (spec §4.3). -/
def targetsFor (p : Peak) (rest : List Peak) : List Peak :=
  (rest.filter (fun q =>
    decide (p.frameIndex < q.frameIndex ∧
      q.frameIndex ≤ p.frameIndex + maxTimeDelta))).take pairsPerAnchor

/-- Pair every anchor of the sorted peak list with its targets and emit
one fingerprint per pair, bound to `tid` with the anchor's frame index
as time offset (spec §4.3). -/
def pairAll (tid : Nat) : List Peak → List Fingerprint
  | [] => []
  | p :: rest =>
      (targetsFor p rest).map (fun q => ⟨hashPair p q, tid, p.frameIndex⟩) ++
        pairAll tid rest

/-- Modelled from the spec: the body of `shazam.Fingerprint`
(`generateFingerprints(peaks, trackID) → set of Fingerprint`, §4.3).
Fails with `InvalidInput` if peaks is empty. -/
def generateFingerprints (peaks : List Peak) (trackID : Nat) :
    Except ShazamError (List Fingerprint) :=
  if peaks = [] then Except.error ShazamError.invalidInput
  else Except.ok (pairAll trackID (sortPeaks peaks))

/-- Modelled from the spec: `shazam.Fingerprint` as invoked by
`ProcessSongFromURL` (a single return value, no error channel at the
call site `fingerprints := shazam.Fingerprint(peaks, songID)`): each
produced fingerprint carries the `trackID` argument, and an empty peak
set yields no fingerprints. -/
def shazamFingerprint (peaks : List Peak) (tid : Nat) : List Fingerprint :=
  match generateFingerprints peaks tid with
  | Except.ok l => l
  | Except.error _ => []

/-- Modelled from the spec: the full build→extract→generate ingestion
pipeline as composed in `ProcessSongFromURL` (§2 data flow, §8): the
spectrogram is built from the samples and sample rate, peaks are
extracted under the track's duration bound, and fingerprints are
generated for the given track identifier. -/
def ingestPipeline (samples : List Rat) (sampleRate : Int) (tid : Nat) :
    Except ShazamError (List Fingerprint) :=
  match buildSpectrogram samples sampleRate with
  | Except.error e => Except.error e
  | Except.ok sp =>
    match extractPeaks sp ((samples.length : Rat) / (sampleRate : Rat)) with
    | Except.error e => Except.error e
    | Except.ok peaks => generateFingerprints peaks tid

/-! ## Embedding of `song/processor.go`

`ProcessSongFromURL` is translated match-for-match from the Go source.
Outcomes of external calls are supplied by an `Env` record; every
external call is appended to an event trace. -/

/-- One character step of locating a filename extension, walking the
path right to left: a dot ends the extension (its length so far plus
the dot), a path separator means the final element has no dot. -/
def extLenRev : List Char → Nat → Option Nat
  | [], _ => none
  | c :: rest, k =>
      if c = '.' then some (k + 1)
      else if c = '/' then none
      else extLenRev rest (k + 1)

/-- Length of `filepath.Ext path`: the suffix beginning at the final dot
in the final path element, empty if there is none. -/
def filepathExtLen (s : String) : Nat :=
  match extLenRev s.data.reverse 0 with
  | none => 0
  | some k => k

/-- Go's `strings.TrimSuffix(path, filepath.Ext(path))`: the path with
its extension removed. -/
def stripExtension (s : String) : String :=
  String.mk (s.data.take (s.data.length - filepathExtLen s))

/-- The `SongInput` struct of `processor.go`.  JSON field absence
decodes to the empty string, so all fields are plain strings. -/
structure SongInput where
  SongURL : String
  Title : String
  Artist : String
  YoutubeID : String
  Duration : String
deriving DecidableEq

/-- The `ProcessResponse` struct of `processor.go`. -/
structure ProcessResponse where
  Success : Bool
  Message : String
  FilePath : String
  FingerprintID : String
deriving DecidableEq

/-- The fields of `wav.ReadWavInfo`'s result that `ProcessSongFromURL`
uses: raw data bytes, sample rate, and duration (a float64 in Go,
modelled as a rational). -/
structure WavInfo where
  Data : List Nat
  SampleRate : Int
  Duration : Rat
deriving DecidableEq

/-- One external call made by `ProcessSongFromURL`, recorded in order in
the trace.  Deferred cleanup calls (`resp.Body.Close`, `out.Close`,
`os.Remove(tmpMP3File)`, `dbClient.Close`) discard their errors by
construction in Go and are not modelled. -/
inductive Event where
  | createFolder (path : String)
  | httpGet (url : String)
  | osCreate (path : String)
  | ioCopy
  | ffmpegRun (inputPath outputPath : String)
  | readWavInfo (path : String)
  | wavBytesToSamples
  | spectrogramCall
  | extractPeaksCall
  | generateUniqueIDCall
  | fingerprintCall (songID : Nat)
  | newDBClientCall
  | registerSongCall (title artist ytID : String)
  | storeFingerprintsCall (fps : List Fingerprint)
  | renameCall (oldPath newPath : String) (ok : Bool)
deriving DecidableEq

/-- The environment: the outcome of every external call
`ProcessSongFromURL` can make.  `Option String` fields are `none` on
success and `some msg` when the call fails with error message `msg`;
data-producing calls are `Except` values or functions of the arguments
the Go code passes, so the data flow of the source is preserved.
`shazam.ExtractPeaks` and `shazam.Fingerprint` return a single value
(no error) at their call sites, hence total functions. -/
structure Env where
  createTmpDir : Option String
  createSongsDir : Option String
  httpGet : Except String Nat
  osCreate : Option String
  ioCopy : Option String
  ffmpegRun : Option String
  readWavInfo : Except String WavInfo
  wavBytesToSamples : List Nat → Except String (List Rat)
  spectrogram : List Rat → Int → Except String (List (List Rat))
  extractPeaks : List (List Rat) → Rat → List Peak
  uniqueID : Nat
  fingerprint : List Peak → Nat → List Fingerprint
  newDBClient : Option String
  registerSong : String → String → String → Except String Nat
  storeFingerprints : List Fingerprint → Option String
  rename : Option String

/-- `convertToWav` of `processor.go`: derives the output path by
stripping the input path's extension and appending `.wav`, then runs
ffmpeg; a failure is wrapped as `failed to convert to WAV: <err>`. -/
def convertToWav (inputPath : String) (env : Env) (tr : List Event) :
    Except String String × List Event :=
  let outputPath := stripExtension inputPath ++ ".wav"
  let tr := tr ++ [Event.ffmpegRun inputPath outputPath]
  match env.ffmpegRun with
  | some e => (Except.error ("failed to convert to WAV: " ++ e), tr)
  | none => (Except.ok outputPath, tr)

/-- `ProcessSongFromURL` of `processor.go`, translated step for step.
The Go function returns `(nil, err)` on every error path and a non-nil
response with nil error only at the end, so the result is an
`Except String ProcessResponse` paired with the trace of external
calls.  The failed rename at the end is logged but deliberately not
returned as an error in the source ("Don't return error here as
fingerprints are already saved"); the trace records whether it
succeeded. -/
def ProcessSongFromURL (input : SongInput) (env : Env) :
    Except String ProcessResponse × List Event :=
  let tr := [Event.createFolder "tmp"]
  match env.createTmpDir with
  | some e => (Except.error ("failed to create tmp directory: " ++ e), tr)
  | none =>
  let tr := tr ++ [Event.createFolder "songs"]
  match env.createSongsDir with
  | some e => (Except.error ("failed to create songs directory: " ++ e), tr)
  | none =>
   let tr := tr ++ [Event.httpGet input.SongURL]
   match env.httpGet with
   | Except.error e => (Except.error ("failed to download song: " ++ e), tr)
   | Except.ok statusCode =>
   if statusCode ≠ 200 then
     (Except.error ("received non-200 status code: " ++ Nat.repr statusCode), tr)
   else
    let tmpMP3File := "tmp/" ++ (input.Title ++ "_" ++ input.Artist ++ ".mp3")
    let tr := tr ++ [Event.osCreate tmpMP3File]
    match env.osCreate with
    | some e => (Except.error ("failed to create temporary file: " ++ e), tr)
    | none =>
    let tr := tr ++ [Event.ioCopy]
    match env.ioCopy with
    | some e => (Except.error ("failed to save downloaded file: " ++ e), tr)
    | none =>
     match convertToWav tmpMP3File env tr with
     | (Except.error e, tr) =>
         (Except.error ("error converting to WAV: " ++ e), tr)
     | (Except.ok tmpWavFile, tr) =>
     let tr := tr ++ [Event.readWavInfo tmpWavFile]
     match env.readWavInfo with
     | Except.error e => (Except.error ("error reading wave info: " ++ e), tr)
     | Except.ok wavInfo =>
      let tr := tr ++ [Event.wavBytesToSamples]
      match env.wavBytesToSamples wavInfo.Data with
      | Except.error e =>
          (Except.error ("error converting to samples: " ++ e), tr)
      | Except.ok samples =>
      let tr := tr ++ [Event.spectrogramCall]
      match env.spectrogram samples wavInfo.SampleRate with
      | Except.error e =>
          (Except.error ("error generating spectrogram: " ++ e), tr)
      | Except.ok spectro =>
       let tr := tr ++ [Event.extractPeaksCall]
       let peaks := env.extractPeaks spectro wavInfo.Duration
       let tr := tr ++ [Event.generateUniqueIDCall]
       let songID := env.uniqueID
       let tr := tr ++ [Event.fingerprintCall songID]
       let fingerprints := env.fingerprint peaks songID
       let tr := tr ++ [Event.newDBClientCall]
       match env.newDBClient with
       | some e => (Except.error ("error creating DB client: " ++ e), tr)
       | none =>
        let tr := tr ++
          [Event.registerSongCall input.Title input.Artist input.YoutubeID]
        match env.registerSong input.Title input.Artist input.YoutubeID with
        | Except.error e => (Except.error ("error registering song: " ++ e), tr)
        | Except.ok registeredSongID =>
         let tr := tr ++ [Event.storeFingerprintsCall fingerprints]
         match env.storeFingerprints fingerprints with
         | some e =>
             (Except.error ("error storing fingerprints: " ++ e), tr)
         | none =>
          let finalPath :=
            "songs/" ++ (input.Title ++ "_" ++ input.Artist ++ ".wav")
          let tr := tr ++
            [Event.renameCall tmpWavFile finalPath env.rename.isNone]
          (Except.ok ⟨true, "Song processed successfully", finalPath,
            Nat.repr registeredSongID⟩, tr)

/-- `ProcessSongJSON` of `processor.go`.  `json.Unmarshal` is Go
standard-library code outside this repository; its result on the given
byte input is supplied as the `unmarshal` oracle: `Except.error` when
the bytes are not valid JSON, `Except.ok` with the decoded struct
otherwise (absent fields decode to the empty string). -/
def ProcessSongJSON (unmarshal : Except String SongInput) (env : Env) :
    Except String ProcessResponse × List Event :=
  match unmarshal with
  | Except.error e => (Except.error ("failed to parse JSON input: " ++ e), [])
  | Except.ok input =>
    if input.SongURL = "" then (Except.error "song_url is required", [])
    else if input.Title = "" then (Except.error "title is required", [])
    else if input.Artist = "" then (Except.error "artist is required", [])
    else ProcessSongFromURL input env

/-! ### Event discriminators, for temporal claims about the trace -/

/-- Tests whether an event is the spectrogram-build call. -/
def isSpectrogramCall : Event → Bool
  | Event.spectrogramCall => true
  | _ => false

/-- Tests whether an event is the peak-extraction call. -/
def isExtractPeaksCall : Event → Bool
  | Event.extractPeaksCall => true
  | _ => false

/-- Tests whether an event is the fingerprint-generation call. -/
def isFingerprintCall : Event → Bool
  | Event.fingerprintCall _ => true
  | _ => false

/-- Tests whether an event is the track-registration call. -/
def isRegisterSongCall : Event → Bool
  | Event.registerSongCall _ _ _ => true
  | _ => false

/-- Tests whether an event is the fingerprint-store call. -/
def isStoreFingerprintsCall : Event → Bool
  | Event.storeFingerprintsCall _ => true
  | _ => false

/-- Tests whether an event is one of download, conversion,
fingerprinting-pipeline or store calls — everything `ProcessSongJSON`'s
validation must not have performed. -/
def isIngestionWork : Event → Bool
  | Event.httpGet _ => true
  | Event.ffmpegRun _ _ => true
  | Event.spectrogramCall => true
  | Event.extractPeaksCall => true
  | Event.fingerprintCall _ => true
  | Event.registerSongCall _ _ _ => true
  | Event.storeFingerprintsCall _ => true
  | _ => false

/-! ### Characterization of successful runs -/

/-- The conjunction of "every fallible step other than the final rename
succeeded" for one run of `ProcessSongFromURL`: directories created,
download returned status 200, temp file created and filled, conversion,
WAV parsing, sample conversion and spectrogram build succeeded, the DB
client was created, the song was registered and the fingerprints were
stored.  The rename outcome is deliberately absent. -/
def SuccessConds (input : SongInput) (env : Env) : Prop :=
  env.createTmpDir = none ∧ env.createSongsDir = none ∧
  env.httpGet = Except.ok 200 ∧ env.osCreate = none ∧ env.ioCopy = none ∧
  env.ffmpegRun = none ∧
  ∃ wi samples spectro,
    env.readWavInfo = Except.ok wi ∧
    env.wavBytesToSamples wi.Data = Except.ok samples ∧
    env.spectrogram samples wi.SampleRate = Except.ok spectro ∧
    env.newDBClient = none ∧
    (∃ registeredSongID,
      env.registerSong input.Title input.Artist input.YoutubeID =
        Except.ok registeredSongID) ∧
    env.storeFingerprints
      (env.fingerprint (env.extractPeaks spectro wi.Duration) env.uniqueID) =
      none

/-- A run of `ProcessSongFromURL` produces a (non-nil) response exactly
when every fallible step other than the final rename succeeds. -/
theorem process_ok_ex (input : SongInput) (env : Env) :
    (∃ r, (ProcessSongFromURL input env).1 = Except.ok r) ↔
      SuccessConds input env := by
  obtain ⟨ct, cs, hg, oc, ic, ff, rwi, bts, spg, exp, uid, fpr, ndb, reg, stf,
    ren⟩ := env
  rcases ct with _ | e₁
  swap
  · simp [ProcessSongFromURL, SuccessConds]
  rcases cs with _ | e₂
  swap
  · simp [ProcessSongFromURL, SuccessConds]
  rcases hg with e₃ | sc
  · simp [ProcessSongFromURL, SuccessConds]
  by_cases hsc : sc = 200
  swap
  · simp [ProcessSongFromURL, SuccessConds, hsc]
  subst hsc
  rcases oc with _ | e₄
  swap
  · simp [ProcessSongFromURL, SuccessConds]
  rcases ic with _ | e₅
  swap
  · simp [ProcessSongFromURL, SuccessConds]
  rcases ff with _ | e₆
  swap
  · simp [ProcessSongFromURL, SuccessConds, convertToWav]
  rcases rwi with e₇ | wi
  · simp [ProcessSongFromURL, SuccessConds, convertToWav]
  rcases h₈ : bts wi.Data with e₈ | samples
  · simp [ProcessSongFromURL, SuccessConds, convertToWav, h₈]
  rcases h₉ : spg samples wi.SampleRate with e₉ | spectro
  · simp [ProcessSongFromURL, SuccessConds, convertToWav, h₈, h₉]
  rcases ndb with _ | e₁₀
  swap
  · simp [ProcessSongFromURL, SuccessConds, convertToWav, h₈, h₉]
  rcases h₁₁ : reg input.Title input.Artist input.YoutubeID with e₁₁ | rid
  · simp [ProcessSongFromURL, SuccessConds, convertToWav, h₈, h₉, h₁₁]
  rcases h₁₂ : stf (fpr (exp spectro wi.Duration) uid) with _ | e₁₂
  · simp [ProcessSongFromURL, SuccessConds, convertToWav, h₈, h₉, h₁₁, h₁₂]
  · simp [ProcessSongFromURL, SuccessConds, convertToWav, h₈, h₉, h₁₁, h₁₂]

/-- On a run in which every fallible step other than the rename
succeeds, `ProcessSongFromURL` returns the success response and its
trace is the full sequence of external calls in source order. -/
theorem process_success_eq (input : SongInput) (env : Env) (wi : WavInfo)
    (samples : List Rat) (spectro : List (List Rat)) (registeredSongID : Nat)
    (h₁ : env.createTmpDir = none) (h₂ : env.createSongsDir = none)
    (h₃ : env.httpGet = Except.ok 200) (h₄ : env.osCreate = none)
    (h₅ : env.ioCopy = none) (h₆ : env.ffmpegRun = none)
    (h₇ : env.readWavInfo = Except.ok wi)
    (h₈ : env.wavBytesToSamples wi.Data = Except.ok samples)
    (h₉ : env.spectrogram samples wi.SampleRate = Except.ok spectro)
    (h₁₀ : env.newDBClient = none)
    (h₁₁ : env.registerSong input.Title input.Artist input.YoutubeID =
      Except.ok registeredSongID)
    (h₁₂ : env.storeFingerprints
      (env.fingerprint (env.extractPeaks spectro wi.Duration) env.uniqueID) =
      none) :
    ProcessSongFromURL input env =
      (Except.ok ⟨true, "Song processed successfully",
        "songs/" ++ (input.Title ++ "_" ++ input.Artist ++ ".wav"),
        Nat.repr registeredSongID⟩,
       [Event.createFolder "tmp", Event.createFolder "songs",
        Event.httpGet input.SongURL,
        Event.osCreate ("tmp/" ++ (input.Title ++ "_" ++ input.Artist ++ ".mp3")),
        Event.ioCopy,
        Event.ffmpegRun
          ("tmp/" ++ (input.Title ++ "_" ++ input.Artist ++ ".mp3"))
          (stripExtension
            ("tmp/" ++ (input.Title ++ "_" ++ input.Artist ++ ".mp3")) ++ ".wav"),
        Event.readWavInfo
          (stripExtension
            ("tmp/" ++ (input.Title ++ "_" ++ input.Artist ++ ".mp3")) ++ ".wav"),
        Event.wavBytesToSamples, Event.spectrogramCall, Event.extractPeaksCall,
        Event.generateUniqueIDCall, Event.fingerprintCall env.uniqueID,
        Event.newDBClientCall,
        Event.registerSongCall input.Title input.Artist input.YoutubeID,
        Event.storeFingerprintsCall
          (env.fingerprint (env.extractPeaks spectro wi.Duration) env.uniqueID),
        Event.renameCall
          (stripExtension
            ("tmp/" ++ (input.Title ++ "_" ++ input.Artist ++ ".mp3")) ++ ".wav")
          ("songs/" ++ (input.Title ++ "_" ++ input.Artist ++ ".wav"))
          env.rename.isNone]) := by
  obtain ⟨ct, cs, hg, oc, ic, ff, rwi, bts, spg, exp, uid, fpr, ndb, reg, stf,
    ren⟩ := env
  simp only at h₁ h₂ h₃ h₄ h₅ h₆ h₇ h₈ h₉ h₁₀ h₁₁ h₁₂
  subst h₁ h₂ h₃ h₄ h₅ h₆ h₇
  simp [ProcessSongFromURL, convertToWav, h₈, h₉, h₁₀, h₁₁, h₁₂]

/-- Decidable equality of `Except` values, so concrete runs can be
settled by `decide`. -/
instance {ε α : Type} [DecidableEq ε] [DecidableEq α] :
    DecidableEq (Except ε α) := fun a b =>
  match a, b with
  | Except.error x, Except.error y =>
      if h : x = y then isTrue (by simp [h]) else isFalse (by simp [h])
  | Except.error _, Except.ok _ => isFalse (by simp)
  | Except.ok _, Except.error _ => isFalse (by simp)
  | Except.ok x, Except.ok y =>
      if h : x = y then isTrue (by simp [h]) else isFalse (by simp [h])

/-! ### Concrete inputs and environments used by witnesses and
counterexamples -/

/-- A concrete well-formed ingestion input. -/
def sampleInput : SongInput := ⟨"http://example.com/a.mp3", "a", "b", "", ""⟩

/-- A concrete environment in which every external call succeeds:
the download returns status 200, the WAV metadata is trivial, the
pipeline values are empty, `GenerateUniqueID` returns 1 and
`RegisterSong` returns 2. -/
def baseEnv : Env where
  createTmpDir := none
  createSongsDir := none
  httpGet := Except.ok 200
  osCreate := none
  ioCopy := none
  ffmpegRun := none
  readWavInfo := Except.ok ⟨[], 44100, 1⟩
  wavBytesToSamples := fun _ => Except.ok []
  spectrogram := fun _ _ => Except.ok []
  extractPeaks := fun _ _ => []
  uniqueID := 1
  fingerprint := fun _ _ => []
  newDBClient := none
  registerSong := fun _ _ _ => Except.ok 2
  storeFingerprints := fun _ => none
  rename := none

/-- `baseEnv`, except that moving the WAV file into the songs directory
fails. -/
def renameFailEnv : Env := { baseEnv with rename := some "permission denied" }

/-- `baseEnv`, except that the download completes with status 404. -/
def notFoundEnv : Env := { baseEnv with httpGet := Except.ok 404 }

/-- `baseEnv`, except that storing the fingerprints fails. -/
def storeFailEnv : Env :=
  { baseEnv with storeFingerprints := fun _ => some "db down" }

/-- `baseEnv`, except that registering the song fails. -/
def registerFailEnv : Env :=
  { baseEnv with registerSong := fun _ _ _ => Except.error "db down" }

/-- `baseEnv`, except that peak extraction returns two pairable peaks
and fingerprint generation is the spec-modelled `shazam.Fingerprint`,
so the stored fingerprints genuinely embed the track identifier passed
to the generator. -/
def bugEnv : Env :=
  { baseEnv with
      extractPeaks := fun _ _ => [⟨0, 0, 1⟩, ⟨1, 1, 1⟩]
      fingerprint := shazamFingerprint }

/-! ### The claims -/

/-- Claim C6: peak extraction fails with `InvalidInput` when given a
spectrogram with zero frames: for every duration, `extractPeaks` on a
zero-frame spectrogram reports `InvalidInput` rather than returning a
peak set. -/
theorem c6_extract_peaks_zero_frames (sp : List (List Rat)) (d : Rat)
    (h : sp.length = 0) :
    extractPeaks sp d = Except.error ShazamError.invalidInput := by
  rcases sp with _ | ⟨f, rest⟩
  · simp [extractPeaks]
  · simp at h

/-- Claim C6 witness: `extractPeaks` at the empty spectrogram and
duration 1 reports `InvalidInput`. -/
theorem c6_witness :
    extractPeaks ([] : List (List Rat)) 1 =
      Except.error ShazamError.invalidInput :=
  c6_extract_peaks_zero_frames [] 1 rfl

/-- Claim C7: fingerprint generation fails with `InvalidInput` when the
peak set is empty: for every track identifier, `generateFingerprints`
on an empty peak set reports `InvalidInput` rather than returning a
fingerprint set. -/
theorem c7_generate_fingerprints_empty_peaks (peaks : List Peak) (tid : Nat)
    (h : peaks = []) :
    generateFingerprints peaks tid = Except.error ShazamError.invalidInput := by
  subst h
  simp [generateFingerprints]

/-- Claim C7 witness: `generateFingerprints` at the empty peak set and
track identifier 5 reports `InvalidInput`. -/
theorem c7_witness :
    generateFingerprints ([] : List Peak) 5 =
      Except.error ShazamError.invalidInput :=
  c7_generate_fingerprints_empty_peaks [] 5 rfl

/-- Claim C8: the build→extract→generate pipeline is deterministic —
two runs of `ingestPipeline` on equal sample sequences, sample rates
and track identifiers produce identical fingerprint results.  The
pipeline is a pure function of its three inputs (no hidden state, no
randomness), so equal inputs force equal outputs. -/
theorem c8_pipeline_deterministic (s₁ s₂ : List Rat) (r₁ r₂ : Int)
    (t₁ t₂ : Nat) (hs : s₁ = s₂) (hr : r₁ = r₂) (ht : t₁ = t₂) :
    ingestPipeline s₁ r₁ t₁ = ingestPipeline s₂ r₂ t₂ := by
  subst hs hr ht
  rfl

/-- Claim C8 witness: two runs of the pipeline on the same concrete
one-sample input, sample rate 44100 and track identifier 7 agree. -/
theorem c8_witness :
    ingestPipeline [1] 44100 7 = ingestPipeline [1] 44100 7 :=
  c8_pipeline_deterministic [1] [1] 44100 44100 7 7 rfl rfl rfl

/-- Claim C9: whenever the HTTP download completes with a status code
other than 200 (the directories having been created, so the download
was reached), `ProcessSongFromURL` returns a nil response with a
non-nil error, and the trace stops at the download — no conversion,
fingerprinting or store call is performed. -/
theorem c9_non_200_aborts (input : SongInput) (env : Env) (s : Nat)
    (h₁ : env.createTmpDir = none) (h₂ : env.createSongsDir = none)
    (h₃ : env.httpGet = Except.ok s) (h₄ : s ≠ 200) :
    (ProcessSongFromURL input env).1 =
      Except.error ("received non-200 status code: " ++ Nat.repr s) ∧
    (ProcessSongFromURL input env).2 =
      [Event.createFolder "tmp", Event.createFolder "songs",
       Event.httpGet input.SongURL] := by
  simp [ProcessSongFromURL, h₁, h₂, h₃, h₄]

/-- Claim C9 witness: at the concrete environment whose download
returns status 404, the function errors and the trace is exactly the
three pre-download calls. -/
theorem c9_witness :
    (ProcessSongFromURL sampleInput notFoundEnv).1 =
      Except.error ("received non-200 status code: " ++ Nat.repr 404) ∧
    (ProcessSongFromURL sampleInput notFoundEnv).2 =
      [Event.createFolder "tmp", Event.createFolder "songs",
       Event.httpGet sampleInput.SongURL] :=
  c9_non_200_aborts sampleInput notFoundEnv 404 rfl rfl rfl (by decide)

/-- Claim C5: `ProcessSongJSON` rejects malformed or empty arguments
with no side effects — if the JSON does not parse, or the parsed
song_url, title or artist is empty, it returns a nil response and a
non-nil error with an empty trace (so no download, conversion or store
operation happened); otherwise it delegates to `ProcessSongFromURL`
with exactly the parsed input. -/
theorem c5_json_validation (u : Except String SongInput) (env : Env) :
    ((∃ e, u = Except.error e) ∨
        (∃ inp, u = Except.ok inp ∧
          (inp.SongURL = "" ∨ inp.Title = "" ∨ inp.Artist = "")) →
      (ProcessSongJSON u env).2 = [] ∧
        ∃ msg, (ProcessSongJSON u env).1 = Except.error msg) ∧
    (∀ inp, u = Except.ok inp → inp.SongURL ≠ "" → inp.Title ≠ "" →
      inp.Artist ≠ "" → ProcessSongJSON u env = ProcessSongFromURL inp env) := by
  constructor
  · rintro (⟨e, rfl⟩ | ⟨inp, rfl, hemp⟩)
    · simp [ProcessSongJSON]
    · rcases hemp with h | h | h
      · simp [ProcessSongJSON, h]
      · by_cases hu : inp.SongURL = "" <;> simp [ProcessSongJSON, hu, h]
      · by_cases hu : inp.SongURL = "" <;> by_cases ht : inp.Title = "" <;>
          simp [ProcessSongJSON, hu, ht, h]
  · rintro inp rfl hu ht ha
    simp [ProcessSongJSON, hu, ht, ha]

/-- Claim C5 witness: concretely, a non-parsing input yields an error
with an empty trace; an input with empty song_url yields an error with
an empty trace; and a fully populated input is delegated unchanged. -/
theorem c5_witness :
    ((ProcessSongJSON (Except.error "bad") baseEnv).2 = [] ∧
      ∃ msg, (ProcessSongJSON (Except.error "bad") baseEnv).1 =
        Except.error msg) ∧
    ((ProcessSongJSON (Except.ok ⟨"", "a", "b", "", ""⟩) baseEnv).2 = [] ∧
      ∃ msg, (ProcessSongJSON (Except.ok ⟨"", "a", "b", "", ""⟩) baseEnv).1 =
        Except.error msg) ∧
    ProcessSongJSON (Except.ok sampleInput) baseEnv =
      ProcessSongFromURL sampleInput baseEnv :=
  ⟨(c5_json_validation (Except.error "bad") baseEnv).1 (Or.inl ⟨"bad", rfl⟩),
   (c5_json_validation (Except.ok ⟨"", "a", "b", "", ""⟩) baseEnv).1
     (Or.inr ⟨⟨"", "a", "b", "", ""⟩, rfl, Or.inl rfl⟩),
   (c5_json_validation (Except.ok sampleInput) baseEnv).2 sampleInput rfl
     (by decide) (by decide) (by decide)⟩

/-- Claim C2 counterexample: the claim "if any step of the ingestion
(including moving the converted WAV file into the songs directory)
fails, the function returns a non-nil error" is false on the code — in
a run where every step succeeds except the final `os.Rename` into the
songs directory, `ProcessSongFromURL` still returns a success response
with a nil error; the failed move is only logged. -/
theorem c2_counterexample :
    renameFailEnv.rename = some "permission denied" ∧
    (ProcessSongFromURL sampleInput renameFailEnv).1 =
      Except.ok ⟨true, "Song processed successfully", "songs/a_b.wav", "2"⟩ ∧
    Event.renameCall "tmp/a_b.wav" "songs/a_b.wav" false ∈
      (ProcessSongFromURL sampleInput renameFailEnv).2 := by
  refine ⟨rfl, ?_, ?_⟩ <;> decide

/-- Claim C2 (amended): every fallible ingestion step except the final
move of the converted WAV into the songs directory propagates its
failure — the function returns a non-nil response exactly when
directory creation, download (status 200), temp-file creation, copy,
conversion, WAV parsing, sample conversion, spectrogram build,
DB-client creation, registration and fingerprint storage all succeed;
a failure of the final move is logged and suppressed, and success is
still returned. -/
theorem c2_errors_propagated_except_rename (input : SongInput) (env : Env) :
    (∃ r, (ProcessSongFromURL input env).1 = Except.ok r) ↔
      SuccessConds input env :=
  process_ok_ex input env

/-- Claim C2 witness: at the concrete environment where only the rename
fails, all non-rename steps succeed and the amended theorem yields a
successful response. -/
theorem c2_witness :
    ∃ r, (ProcessSongFromURL sampleInput renameFailEnv).1 = Except.ok r :=
  (c2_errors_propagated_except_rename sampleInput renameFailEnv).mpr
    ⟨rfl, rfl, rfl, rfl, rfl, rfl, ⟨[], 44100, 1⟩, [], [], rfl, rfl, rfl, rfl,
      ⟨2, rfl⟩, rfl⟩

/-- Claim C3: on every successful ingestion the per-track step order is
preserved — in the trace, the spectrogram build precedes peak
extraction, which precedes fingerprint generation, which precedes track
registration (RegisterSong), which precedes fingerprint storage
(StoreFingerprints); the final bound shows all five calls are present
(a missing call would make `findIdx` return the trace length). -/
theorem c3_step_order (input : SongInput) (env : Env) (r : ProcessResponse)
    (h : (ProcessSongFromURL input env).1 = Except.ok r) :
    (ProcessSongFromURL input env).2.findIdx isSpectrogramCall <
      (ProcessSongFromURL input env).2.findIdx isExtractPeaksCall ∧
    (ProcessSongFromURL input env).2.findIdx isExtractPeaksCall <
      (ProcessSongFromURL input env).2.findIdx isFingerprintCall ∧
    (ProcessSongFromURL input env).2.findIdx isFingerprintCall <
      (ProcessSongFromURL input env).2.findIdx isRegisterSongCall ∧
    (ProcessSongFromURL input env).2.findIdx isRegisterSongCall <
      (ProcessSongFromURL input env).2.findIdx isStoreFingerprintsCall ∧
    (ProcessSongFromURL input env).2.findIdx isStoreFingerprintsCall <
      (ProcessSongFromURL input env).2.length := by
  obtain ⟨h₁, h₂, h₃, h₄, h₅, h₆, wi, samples, spectro, h₇, h₈, h₉, h₁₀,
    ⟨rid, h₁₁⟩, h₁₂⟩ := (process_ok_ex input env).mp ⟨r, h⟩
  rw [process_success_eq input env wi samples spectro rid h₁ h₂ h₃ h₄ h₅ h₆ h₇
    h₈ h₉ h₁₀ h₁₁ h₁₂]
  simp [List.findIdx_cons, isSpectrogramCall, isExtractPeaksCall,
    isFingerprintCall, isRegisterSongCall, isStoreFingerprintsCall]

/-- Claim C3 witness: a concrete fully successful run, at which the
five pipeline calls occur in order. -/
theorem c3_witness :
    (ProcessSongFromURL sampleInput baseEnv).2.findIdx isSpectrogramCall <
      (ProcessSongFromURL sampleInput baseEnv).2.findIdx isExtractPeaksCall ∧
    (ProcessSongFromURL sampleInput baseEnv).2.findIdx isExtractPeaksCall <
      (ProcessSongFromURL sampleInput baseEnv).2.findIdx isFingerprintCall ∧
    (ProcessSongFromURL sampleInput baseEnv).2.findIdx isFingerprintCall <
      (ProcessSongFromURL sampleInput baseEnv).2.findIdx isRegisterSongCall ∧
    (ProcessSongFromURL sampleInput baseEnv).2.findIdx isRegisterSongCall <
      (ProcessSongFromURL sampleInput baseEnv).2.findIdx
        isStoreFingerprintsCall ∧
    (ProcessSongFromURL sampleInput baseEnv).2.findIdx
        isStoreFingerprintsCall <
      (ProcessSongFromURL sampleInput baseEnv).2.length :=
  c3_step_order sampleInput baseEnv
    ⟨true, "Song processed successfully", "songs/a_b.wav", "2"⟩ (by decide)

/-- Claim C10: whenever `ProcessSongFromURL` returns a non-nil
response, that response has `Success = true`, the fixed success
message, `FingerprintID` equal to the decimal string of the identifier
returned by RegisterSong, and `FilePath = songs/<Title>_<Artist>.wav` —
including in runs where the rename failed, in which case the trace
records that the move of the WAV into the reported path did not happen
(so no file was placed at the reported FilePath). -/
theorem c10_response_shape (input : SongInput) (env : Env)
    (r : ProcessResponse)
    (h : (ProcessSongFromURL input env).1 = Except.ok r) :
    r.Success = true ∧
    r.Message = "Song processed successfully" ∧
    r.FilePath = "songs/" ++ (input.Title ++ "_" ++ input.Artist ++ ".wav") ∧
    (∃ id, env.registerSong input.Title input.Artist input.YoutubeID =
        Except.ok id ∧ r.FingerprintID = Nat.repr id) ∧
    (env.rename ≠ none →
      Event.renameCall
          (stripExtension
            ("tmp/" ++ (input.Title ++ "_" ++ input.Artist ++ ".mp3")) ++
            ".wav")
          ("songs/" ++ (input.Title ++ "_" ++ input.Artist ++ ".wav")) false ∈
        (ProcessSongFromURL input env).2) := by
  obtain ⟨h₁, h₂, h₃, h₄, h₅, h₆, wi, samples, spectro, h₇, h₈, h₉, h₁₀,
    ⟨rid, h₁₁⟩, h₁₂⟩ := (process_ok_ex input env).mp ⟨r, h⟩
  have heq := process_success_eq input env wi samples spectro rid h₁ h₂ h₃ h₄
    h₅ h₆ h₇ h₈ h₉ h₁₀ h₁₁ h₁₂
  rw [heq] at h
  simp only [Except.ok.injEq] at h
  subst h
  refine ⟨rfl, rfl, rfl, ⟨rid, h₁₁, rfl⟩, ?_⟩
  intro hren
  have hfalse : env.rename.isNone = false := by
    cases hrr : env.rename
    · exact absurd hrr hren
    · rfl
  rw [heq]
  simp [hfalse]

/-- Claim C10 witness: a concrete run in which the rename fails still
returns the success response, and its trace records the move as not
performed. -/
theorem c10_witness :
    (⟨true, "Song processed successfully", "songs/a_b.wav", "2"⟩ :
        ProcessResponse).Success = true ∧
    (⟨true, "Song processed successfully", "songs/a_b.wav", "2"⟩ :
        ProcessResponse).Message = "Song processed successfully" ∧
    (⟨true, "Song processed successfully", "songs/a_b.wav", "2"⟩ :
        ProcessResponse).FilePath =
      "songs/" ++ (sampleInput.Title ++ "_" ++ sampleInput.Artist ++ ".wav") ∧
    (∃ id, renameFailEnv.registerSong sampleInput.Title sampleInput.Artist
        sampleInput.YoutubeID = Except.ok id ∧
      (⟨true, "Song processed successfully", "songs/a_b.wav", "2"⟩ :
          ProcessResponse).FingerprintID = Nat.repr id) ∧
    (renameFailEnv.rename ≠ none →
      Event.renameCall
          (stripExtension
            ("tmp/" ++
              (sampleInput.Title ++ "_" ++ sampleInput.Artist ++ ".mp3")) ++
            ".wav")
          ("songs/" ++
            (sampleInput.Title ++ "_" ++ sampleInput.Artist ++ ".wav"))
          false ∈
        (ProcessSongFromURL sampleInput renameFailEnv).2) :=
  c10_response_shape sampleInput renameFailEnv
    ⟨true, "Song processed successfully", "songs/a_b.wav", "2"⟩ (by decide)

/-- Claim C4: a failure of fingerprint persistence is propagated with
no internal retry — if the run reaches the store and `StoreFingerprints`
fails, the function returns a single non-nil error whose message
carries the store's error verbatim behind the fixed
`error storing fingerprints:` wrap, the store call appears exactly once
in the trace (no retry), and no response is produced; if `RegisterSong`
fails, its error is returned the same way, registration appears exactly
once, and `StoreFingerprints` is never called. -/
theorem c4_store_failure_propagated (input : SongInput) (env : Env)
    (wi : WavInfo) (samples : List Rat) (spectro : List (List Rat))
    (e : String)
    (h₁ : env.createTmpDir = none) (h₂ : env.createSongsDir = none)
    (h₃ : env.httpGet = Except.ok 200) (h₄ : env.osCreate = none)
    (h₅ : env.ioCopy = none) (h₆ : env.ffmpegRun = none)
    (h₇ : env.readWavInfo = Except.ok wi)
    (h₈ : env.wavBytesToSamples wi.Data = Except.ok samples)
    (h₉ : env.spectrogram samples wi.SampleRate = Except.ok spectro)
    (h₁₀ : env.newDBClient = none) :
    (∀ rid, env.registerSong input.Title input.Artist input.YoutubeID =
        Except.ok rid →
      env.storeFingerprints
          (env.fingerprint (env.extractPeaks spectro wi.Duration)
            env.uniqueID) = some e →
      (ProcessSongFromURL input env).1 =
        Except.error ("error storing fingerprints: " ++ e) ∧
      (ProcessSongFromURL input env).2.countP isStoreFingerprintsCall = 1) ∧
    (env.registerSong input.Title input.Artist input.YoutubeID =
        Except.error e →
      (ProcessSongFromURL input env).1 =
        Except.error ("error registering song: " ++ e) ∧
      (ProcessSongFromURL input env).2.countP isRegisterSongCall = 1 ∧
      (ProcessSongFromURL input env).2.countP isStoreFingerprintsCall = 0) := by
  constructor
  · intro rid hreg hstf
    simp [ProcessSongFromURL, convertToWav, h₁, h₂, h₃, h₄, h₅, h₆, h₇, h₈,
      h₉, h₁₀, hreg, hstf, List.countP_cons, isStoreFingerprintsCall]
  · intro hreg
    simp [ProcessSongFromURL, convertToWav, h₁, h₂, h₃, h₄, h₅, h₆, h₇, h₈,
      h₉, h₁₀, hreg, List.countP_cons, isStoreFingerprintsCall,
      isRegisterSongCall]

/-- Claim C4 witness: concretely, with the store failing the error is
returned and the store was called once; with registration failing its
error is returned, registration was called once and the store never. -/
theorem c4_witness :
    ((ProcessSongFromURL sampleInput storeFailEnv).1 =
        Except.error ("error storing fingerprints: " ++ "db down") ∧
      (ProcessSongFromURL sampleInput storeFailEnv).2.countP
        isStoreFingerprintsCall = 1) ∧
    ((ProcessSongFromURL sampleInput registerFailEnv).1 =
        Except.error ("error registering song: " ++ "db down") ∧
      (ProcessSongFromURL sampleInput registerFailEnv).2.countP
        isRegisterSongCall = 1 ∧
      (ProcessSongFromURL sampleInput registerFailEnv).2.countP
        isStoreFingerprintsCall = 0) :=
  ⟨(c4_store_failure_propagated sampleInput storeFailEnv ⟨[], 44100, 1⟩ [] []
      "db down" rfl rfl rfl rfl rfl rfl rfl rfl rfl rfl).1 2 rfl rfl,
   (c4_store_failure_propagated sampleInput registerFailEnv ⟨[], 44100, 1⟩ []
      [] "db down" rfl rfl rfl rfl rfl rfl rfl rfl rfl rfl).2 rfl⟩

/-- Claim C1 (code bug): the fingerprints stored during ingestion do
NOT reference the identifier returned by RegisterSong.  The source
generates them with a fresh `utils.GenerateUniqueID()` value (line 113)
before `RegisterSong` is even called (line 125), so in a successful run
where `GenerateUniqueID` gives 1 and `RegisterSong` returns 2 — with
the spec-modelled `shazam.Fingerprint`, which embeds its trackID
argument as the spec requires — every fingerprint passed to
`StoreFingerprints` carries track identifier 1 while the response's
`FingerprintID` is "2". -/
theorem c1_stored_trackid_differs_from_registered :
    bugEnv.uniqueID = 1 ∧
    bugEnv.registerSong sampleInput.Title sampleInput.Artist
      sampleInput.YoutubeID = Except.ok 2 ∧
    (ProcessSongFromURL sampleInput bugEnv).1 =
      Except.ok ⟨true, "Song processed successfully", "songs/a_b.wav", "2"⟩ ∧
    Event.storeFingerprintsCall [⟨65, 1, 0⟩] ∈
      (ProcessSongFromURL sampleInput bugEnv).2 ∧
    (∀ fp ∈ ([⟨65, 1, 0⟩] : List Fingerprint), fp.trackID ≠ 2) := by
  refine ⟨rfl, rfl, ?_, ?_, ?_⟩ <;> decide

end SeekTune
